import Mathlib

/-!
Shallow embedding of the agentic molecular-optimization service:
`tools.py` (property-oracle shims), `graph.py` (graph state, the router
`should_continue`, and the designer / validator / synthesizer nodes), and
`main.py` (the `/api/get-sa-score` endpoint and the `/api/run-crew`
initial state).

Modeling conventions:
- External capabilities (the LLM generator, the RDKit property oracle, and
  the narrating agents) are parameters, bundled in `ExternalCapabilities`.
- Python floats are modeled as rationals; Python dicts as ordered
  association lists of `String × Value`; the single nested dict
  (`validation_results["original_props"]`) is modeled as the separate
  optional field `VResults.original_props`.
- An uncaught Python exception inside the router is the `StepOutcome.raised`
  outcome, carrying the state as already mutated before the raise.
- Diagnostic strings that interpolate floating-point values in the source
  keep their fixed prefix text with the numeric interpolation elided;
  diagnostics that are string constants in the source are kept verbatim.
-/

/-- A Python value as it appears in the request / state dictionaries:
a float (or int), a string, or a bool. -/
inductive Value where
  | num (q : ℚ)
  | str (s : String)
  | bool (b : Bool)
deriving DecidableEq, Repr

/-- Numeric view of a Python value for arithmetic and comparisons:
Python bools are numbers (True == 1, False == 0); strings are not. -/
def Value.toNum : Value → Option ℚ
  | .num q => some q
  | .bool b => some (if b then 1 else 0)
  | .str _ => none

/-- Python truthiness of a value. -/
def Value.truthy : Value → Bool
  | .num q => decide (q ≠ 0)
  | .str s => decide (s ≠ "")
  | .bool b => b

/-- Lexicographic (code-point) comparison of character lists, matching
Python string comparison. -/
def charsLt : List Char → List Char → Bool
  | [], [] => false
  | [], _ :: _ => true
  | _ :: _, [] => false
  | a :: as, b :: bs => if a = b then charsLt as bs else decide (a < b)

/-- Python `a < b` on values: numbers (and bools) compare numerically,
strings compare lexicographically, and mixed numeric/string comparison
raises `TypeError`. -/
def Value.lt : Value → Value → Except String Bool
  | .str a, .str b => .ok (charsLt a.toList b.toList)
  | a, b =>
    match a.toNum, b.toNum with
    | some x, some y => .ok (decide (x < y))
    | _, _ => .error "TypeError"

/-- Python `a <= b` on values, with the same raising behavior as `Value.lt`. -/
def Value.le : Value → Value → Except String Bool
  | .str a, .str b => .ok (charsLt a.toList b.toList || a == b)
  | a, b =>
    match a.toNum, b.toNum with
    | some x, some y => .ok (decide (x ≤ y))
    | _, _ => .error "TypeError"

/-- Python `v == q` where the right operand is a number: numeric values
compare numerically, any other value is simply unequal (no raise). -/
def Value.eqNum (v : Value) (q : ℚ) : Bool :=
  match v.toNum with
  | some n => decide (n = q)
  | none => false

/-- Python `max(a, b)` on numbers. -/
def pymax (a b : ℚ) : ℚ := if a < b then b else a

/-- The float constant 0.4 (the absolute similarity-floor minimum in
graph.py), as a reduced fraction. -/
def pt4 : ℚ := ⟨2, 5, by decide, by decide⟩

/-- The float constant 0.1 (the similarity-floor relaxation decrement). -/
def pt1 : ℚ := ⟨1, 10, by decide, by decide⟩

/-- The float constant 0.9 (the QED "already good" threshold). -/
def pt9 : ℚ := ⟨9, 10, by decide, by decide⟩

/-- The float constant 0.2, used by concrete fixtures. -/
def pt2 : ℚ := ⟨1, 5, by decide, by decide⟩

/-- The float constant 0.5, used by concrete fixtures. -/
def pt5 : ℚ := ⟨1, 2, by decide, by decide⟩

/-- Dictionary lookup (`d.get(k)` / `d[k]`): first binding of the key. -/
def getk : List (String × Value) → String → Option Value
  | [], _ => none
  | (k, v) :: rest, key => if k = key then some v else getk rest key

/-- Dictionary update (`d[k] = v`): overwrite the binding if the key is
present, append it otherwise (Python dicts keep insertion order). -/
def setk : List (String × Value) → String → Value → List (String × Value)
  | [], key, v => [(key, v)]
  | (k, w) :: rest, key, v =>
    if k = key then (k, v) :: rest else (k, w) :: setk rest key v

/-- `pat in s` for Python strings: `listStartsWith pat s` says `pat` is a
prefix of `s`. -/
def listStartsWith : List Char → List Char → Bool
  | [], _ => true
  | _ :: _, [] => false
  | a :: as, b :: bs => a == b && listStartsWith as bs

/-- Substring occurrence over character lists. -/
def listContains : List Char → List Char → Bool
  | [], pat => pat.isEmpty
  | c :: rest, pat => listStartsWith pat (c :: rest) || listContains rest pat

/-- Python `pat in s` for strings. -/
def strContains (s pat : String) : Bool := listContains s.toList pat.toList

/-- The `validation_results` dict: scalar entries plus the one nested dict
(`original_props`), written by `validator_node` only on a valid candidate. -/
structure VResults where
  entries : List (String × Value)
  original_props : Option (List (String × Value)) := none
deriving DecidableEq, Repr

/-- The final report assembled by `synthesizer_node` (graph.py). -/
structure FinalReport where
  status : String
  final_smiles : String
  validation : VResults
  history : List String
  attempts : Int
  executive_summary : String
deriving DecidableEq, Repr

/-- The `ResearchState` TypedDict of graph.py. `similarity_failures` is
`Option Int` because the run-crew initializer misspells its key
(`imilarity_failures`), so the correctly spelled key can be absent;
`state.get('similarity_failures', 0)` is `(·.getD 0)`. -/
structure ResearchState where
  input_smiles : String
  optimization_goal : String
  constraints : List (String × Value)
  proposed_smiles : String
  validation_results : VResults
  conversation_history : List String
  final_report : Option FinalReport := none
  retries : Int
  max_retries : Int
  similarity_failures : Option Int
  max_similarity_failures : Int
deriving DecidableEq, Repr

/-- The external, nondeterministic capabilities the loop drives: the LLM
generator, the RDKit validity / property / similarity oracles, and the two
narrating agents (validator summary, executive summary). -/
structure ExternalCapabilities where
  gen : ResearchState → String
  validF : String → Bool
  propF : String → String → ℚ
  simF : String → String → ℚ
  sumF : ResearchState → String
  narrF : ResearchState → String

/-- `_get_all_properties` (graph.py): `{"is_valid": False}` on an invalid
SMILES, otherwise the full property dict, plus `similarity` when a
non-empty original SMILES is supplied. -/
def _get_all_properties (validF : String → Bool) (propF : String → String → ℚ)
    (simF : String → String → ℚ) (smiles : String) (original : Option String) :
    List (String × Value) :=
  if ¬ validF smiles then [("is_valid", .bool false)]
  else
    [("is_valid", .bool true),
     ("logp", .num (propF "logp" smiles)),
     ("mw", .num (propF "mw" smiles)),
     ("tpsa", .num (propF "tpsa" smiles)),
     ("aromatic_rings", .num (propF "aromatic_rings" smiles)),
     ("hbd", .num (propF "hbd" smiles)),
     ("hba", .num (propF "hba" smiles)),
     ("rotatable_bonds", .num (propF "rotatable_bonds" smiles)),
     ("lipinski_violations", .num (propF "lipinski_violations" smiles)),
     ("qed", .num (propF "qed" smiles))] ++
    (match original with
     | some o => if o == "" then [] else [("similarity", .num (simF o smiles))]
     | none => [])

/-- `designer_node` (graph.py): sanitize the generator output, increment
`retries`, record the proposal. The sanitation strips whitespace and
removes backticks, the word `python`, and newlines, in that order. -/
def designer_node (ext : ExternalCapabilities) (state : ResearchState) : ResearchState :=
  let cleaned :=
    ((((ext.gen state).trim).replace "`" "").replace "python" "").replace "\n" ""
  { state with
    proposed_smiles := cleaned,
    retries := state.retries + 1,
    conversation_history := state.conversation_history ++
      ["Designer (Attempt " ++ toString (state.retries + 1) ++ "): Proposed " ++ cleaned] }

/-- `validator_node` (graph.py): compute the candidate's property dict
(with similarity to the origin), attach the free-text summary, and on a
valid candidate also the origin's property dict. -/
def validator_node (ext : ExternalCapabilities) (state : ResearchState) : ResearchState :=
  let smiles := state.proposed_smiles
  let original := state.input_smiles
  let summary := ext.sumF state
  let base := _get_all_properties ext.validF ext.propF ext.simF smiles (some original)
  let vres : VResults :=
    if Value.truthy ((getk base "is_valid").getD (.bool false)) then
      { entries := setk base "summary" (.str summary),
        original_props := some (_get_all_properties ext.validF ext.propF ext.simF original none) }
    else
      { entries := setk base "summary" (.str summary), original_props := none }
  { state with
    validation_results := vres,
    conversation_history := state.conversation_history ++ ["Validator: " ++ summary] }

/-- Result of the goal-checking section of `should_continue` (the region
guarded by `try`): the computed `goal_met` flag, whether the unknown-goal
fallback fired, or an exception caught by the `except` clause. -/
inductive GoalRes where
  | ok (goal_met : Bool) (unknown : Bool)
  | fault
deriving DecidableEq, Repr

/-- The inner `compare_values` helper of `should_continue`: missing data on
either side hits the infinity-sentinel failsafe and yields `goal_met =
False` without raising; a present non-numeric value raises (a fault caught
by the surrounding `try`). -/
def compare_values (original_props entries : List (String × Value))
    (prop : String) (greater : Bool) : GoalRes :=
  match getk original_props prop, getk entries prop with
  | some ov, some nv =>
    match ov.toNum, nv.toNum with
    | some o, some n => .ok (if greater then decide (n > o) else decide (n < o)) false
    | _, _ => .fault
  | _, _ => .ok false false

/-- The combined Lipinski/QED branch of the goal check (graph.py): met when
violations strictly decreased, or QED strictly increased, or QED is above
0.9 with at most 1 violation. Direct dict indexing raises `KeyError`
(`.fault`) on a missing key, and the eager numeric comparisons raise on
non-numeric data. -/
def lipinskiCheck (original_props entries : List (String × Value)) : GoalRes :=
  match getk original_props "lipinski_violations", getk entries "lipinski_violations",
        getk original_props "qed", getk entries "qed" with
  | some ovV, some nvV, some oqV, some nqV =>
    match ovV.toNum, nvV.toNum, oqV.toNum, nqV.toNum with
    | some ov, some nv, some oq, some nq =>
      .ok (decide (nv < ov) || decide (nq > oq) ||
           (decide (nq > pt9) && decide (nv ≤ 1))) false
    | _, _, _, _ => .fault
  | _, _, _, _ => .fault

/-- The goal-comparison dispatch of `should_continue` (graph.py): substring
matching on the goal text, in source order; the trailing `else` deems an
unrecognized goal met. Direct dict indexing (`original_props[...]`,
`results[...]`) raises `KeyError` on a missing key, modeled as `.fault`. -/
def goalCheck (goal : String) (original_props entries : List (String × Value)) : GoalRes :=
  if strContains goal "Decrease LogP" then compare_values original_props entries "logp" false
  else if strContains goal "Increase LogP" then compare_values original_props entries "logp" true
  else if strContains goal "Decrease TPSA" then compare_values original_props entries "tpsa" false
  else if strContains goal "Increase TPSA" then compare_values original_props entries "tpsa" true
  else if strContains goal "Decrease MW" then compare_values original_props entries "mw" false
  else if strContains goal "Add Aromatic Ring" then
    match getk original_props "aromatic_rings", getk entries "aromatic_rings" with
    | some ov, some nv =>
      match ov.toNum with
      | some o => .ok (nv.eqNum (o + 1)) false
      | none => .fault
    | _, _ => .fault
  else if strContains goal "Remove Aromatic Ring" then
    match getk original_props "aromatic_rings", getk entries "aromatic_rings" with
    | some ov, some nv =>
      match ov.toNum with
      | some o =>
        match nv.toNum with
        | some n => .ok (decide (n = o - 1) && decide (n ≥ 0)) false
        | none => .ok false false
      | none => .fault
    | _, _ => .fault
  else if strContains goal "Increase HBD" then compare_values original_props entries "hbd" true
  else if strContains goal "Decrease HBD" then compare_values original_props entries "hbd" false
  else if strContains goal "Increase HBA" then compare_values original_props entries "hba" true
  else if strContains goal "Decrease HBA" then compare_values original_props entries "hba" false
  else if strContains goal "Decrease Rotatable Bonds" then
    compare_values original_props entries "rotatable_bonds" false
  else if strContains goal "Increase Rotatable Bonds" then
    compare_values original_props entries "rotatable_bonds" true
  else if strContains goal "Improve Lipinski" || strContains goal "Decrease Toxicity" then
    lipinskiCheck original_props entries
  else .ok true true

/-- The exact-membership list the router uses to gate a failed goal check. -/
def verifiable_goals : List String :=
  ["Decrease LogP", "Increase LogP", "Decrease TPSA", "Increase TPSA", "Decrease MW",
   "Add Aromatic Ring", "Remove Aromatic Ring", "Increase HBD", "Decrease HBD",
   "Increase HBA", "Decrease HBA", "Decrease Rotatable Bonds", "Increase Rotatable Bonds",
   "Improve Lipinski", "Decrease Toxicity"]

/-- The two ways a call of `should_continue` can end: a routing decision
(`"design"` = Retry, `"synthesize"` = terminate) with the updated state, or
an uncaught exception, with the state as mutated before the raise. -/
inductive Route where
  | design
  | synthesize
deriving DecidableEq, Repr

inductive StepOutcome where
  | route (r : Route) (s : ResearchState)
  | raised (msg : String) (s : ResearchState)
deriving DecidableEq, Repr

/-- `should_continue` (graph.py), the router. Checks in source order:
1. max-retries budget (terminal Failure, overrides everything);
2. invalid candidate (Retry);
3. similarity floor, with streak counting and floor relaxation
   `max(0.4, floor - 0.1)` once the streak reaches its limit, and an
   unconditional streak reset when the similarity check passes;
4. molecular-weight window (chained comparison, short-circuit);
5. the `try`-guarded goal comparison (faults become Retry);
6. the exact-membership gate on a failed verifiable goal;
7. otherwise terminal Success with `meets_constraints = True`.
Comparisons against non-numeric constraint values, and float-formatting of
non-numeric data in diagnostics, raise outside any `try` and surface as
`StepOutcome.raised`. -/
def should_continue (state : ResearchState) : StepOutcome :=
  -- Hard stop 1: Max retries
  if state.retries ≥ state.max_retries then
    let e1 := setk state.validation_results.entries "summary"
      (.str "Failure: Max retries reached.")
    let e2 := setk e1 "meets_constraints" (.bool false)
    .route .synthesize
      { state with validation_results := { state.validation_results with entries := e2 } }
  else
  let results := state.validation_results
  let constraints := state.constraints
  let goal := state.optimization_goal
  let original_props := results.original_props.getD []
  -- Hard stop 2: Invalid SMILES
  if ¬ Value.truthy ((getk results.entries "is_valid").getD (.bool false)) then
    .route .design
      { state with conversation_history :=
          state.conversation_history ++ ["Router: Invalid SMILES. Retrying."] }
  else
  -- Hard stop 3: Similarity constraint (with loop-breaking relaxation)
  let min_similarity := (getk constraints "similarity").getD (.num 0)
  let sim := (getk results.entries "similarity").getD (.num 1)
  match Value.lt sim min_similarity with
  | .error e => .raised e state
  | .ok true =>
    let sf := state.similarity_failures.getD 0 + 1
    let state1 := { state with similarity_failures := some sf }
    if sf ≥ state1.max_similarity_failures then
      match min_similarity.toNum with
      | none => .raised "TypeError" state1
      | some q =>
        let new_min := pymax pt4 (q - pt1)
        .route .design
          { state1 with
            constraints := setk state1.constraints "similarity" (.num new_min),
            similarity_failures := some 0,
            conversation_history := state1.conversation_history ++
              ["Router: Hit max similarity failures. Temporarily reducing target minimum similarity to encourage exploration."] }
    else
      -- the below-threshold diagnostic float-formats results['similarity']
      -- (direct indexing) and min_similarity, raising on missing or
      -- non-numeric data
      match getk results.entries "similarity" with
      | none => .raised "KeyError" state1
      | some sv =>
        match sv.toNum, min_similarity.toNum with
        | some _, some _ =>
          .route .design
            { state1 with conversation_history := state1.conversation_history ++
                ["Router: Similarity is below threshold. Retrying."] }
        | _, _ => .raised "ValueError" state1
  | .ok false =>
    -- Reset similarity failure counter if a valid design is produced
    let state2 := { state with similarity_failures := some 0 }
    -- Hard stop 4: Molecular Weight constraints
    let mwMin := (getk constraints "mwMin").getD (.num 0)
    let mwMax := (getk constraints "mwMax").getD (.num 1000)
    let mw := (getk results.entries "mw").getD (.num 0)
    let mwRetry : StepOutcome :=
      match mw.toNum with
      | none => .raised "ValueError" state2
      | some _ =>
        .route .design
          { state2 with conversation_history := state2.conversation_history ++
              ["Router: MW is outside allowed range. Retrying."] }
    match Value.le mwMin mw with
    | .error e => .raised e state2
    | .ok false => mwRetry
    | .ok true =>
      match Value.le mw mwMax with
      | .error e => .raised e state2
      | .ok false => mwRetry
      | .ok true =>
        -- Goal checking, guarded by try/except
        match goalCheck goal original_props results.entries with
        | .fault =>
          .route .design
            { state2 with conversation_history := state2.conversation_history ++
                ["Router: Error during goal check. Retrying."] }
        | .ok goal_met unknown =>
          let state3 :=
            if unknown then
              { state2 with conversation_history := state2.conversation_history ++
                  ["Router: Unknown goal. Proceeding to final synthesis if constraints are met."] }
            else state2
          if verifiable_goals.contains goal && !goal_met then
            .route .design
              { state3 with conversation_history := state3.conversation_history ++
                  ["Router: Goal not met. Retrying."] }
          else
            let e3 := setk state3.validation_results.entries "meets_constraints" (.bool true)
            .route .synthesize
              { state3 with
                validation_results := { state3.validation_results with entries := e3 },
                conversation_history := state3.conversation_history ++
                  ["Router: All constraints and goals met. Proceeding to final synthesis."] }

/-- The report built by `synthesizer_node` (graph.py): status from the
`meets_constraints` marker, attempts = `retries`, narrative from the
external synthesizer agent. -/
def synthesizer_report (ext : ExternalCapabilities) (state : ResearchState) : FinalReport :=
  let status :=
    if Value.truthy ((getk state.validation_results.entries "meets_constraints").getD (.bool false))
    then "Success" else "Failure"
  let hist1 := state.conversation_history ++
    [if status = "Success" then "Synthesizer: Research complete. Compiling final report."
     else "Synthesizer: Research failed. Compiling final report."]
  let hist2 := hist1 ++ ["Synthesizer: Generated Executive Summary."]
  { status := status,
    final_smiles := state.proposed_smiles,
    validation := state.validation_results,
    history := hist2,
    attempts := state.retries,
    executive_summary := ext.narrF state }

/-- `synthesizer_node` (graph.py). -/
def synthesizer_node (ext : ExternalCapabilities) (state : ResearchState) : ResearchState :=
  let report := synthesizer_report ext state
  { state with conversation_history := report.history, final_report := some report }

/-- Result of driving the compiled graph: terminal report (with the total
number of generator calls), an uncaught exception aborting the stream (no
report), or fuel exhaustion (does not occur for sufficient fuel). -/
inductive RunResult where
  | outOfFuel (s : ResearchState)
  | done (report : FinalReport) (calls : Nat)
  | crashed (msg : String) (calls : Nat)
deriving DecidableEq, Repr

/-- The compiled graph's loop (graph.py): design → validate → decide,
looping on `"design"` and finishing through `synthesizer_node` on
`"synthesize"`. `calls` accumulates the number of generator invocations. -/
def runLoop (ext : ExternalCapabilities) : Nat → ResearchState → Nat → RunResult
  | 0, s, _ => .outOfFuel s
  | fuel + 1, s, calls =>
    let s1 := designer_node ext s
    let s2 := validator_node ext s1
    match should_continue s2 with
    | .raised msg _ => .crashed msg (calls + 1)
    | .route .design s3 => runLoop ext fuel s3 (calls + 1)
    | .route .synthesize s3 => .done (synthesizer_report ext s3) (calls + 1)

/-- The constraint preprocessing of `run_crew` (main.py): when a toggle is
off, install the documented unconstrained defaults. -/
def run_crew_constraints (c : List (String × Value)) : List (String × Value) :=
  let c1 :=
    if ¬ Value.truthy ((getk c "isMwEnabled").getD (.bool false)) then
      setk (setk c "mwMin" (.num 0)) "mwMax" (.num 9999)
    else c
  if ¬ Value.truthy ((getk c1 "isSaScoreEnabled").getD (.bool false)) then
    setk c1 "saScore" (.num 10)
  else c1

/-- The initial state built by `run_crew` (main.py). The source spells the
similarity-failure key `imilarity_failures`, so the correctly spelled
`similarity_failures` key is absent from the state handed to the graph:
`none` here. -/
def run_crew_initial_state (smiles goal : String) (constraints : List (String × Value)) :
    ResearchState :=
  { input_smiles := smiles,
    optimization_goal := goal,
    constraints := run_crew_constraints constraints,
    proposed_smiles := "",
    validation_results := { entries := [], original_props := none },
    conversation_history := [],
    final_report := none,
    retries := 0,
    max_retries := 5,
    similarity_failures := none,
    max_similarity_failures := 4 }

/-- `get_is_smiles_string_valid` (tools.py), parametrized by the RDKit
parser's verdict. -/
def get_is_smiles_string_valid (validF : String → Bool) (smiles : String) : String :=
  if ¬ validF smiles then "Invalid SMILES string." else "Valid"

/-- `get_sa_score` (tools.py): the formatted SA score, or the
`"Invalid SMILES"` marker (unparsable as a float). -/
def get_sa_score (validF : String → Bool) (saF : String → ℚ) (smiles : String) : Value :=
  if ¬ validF smiles then .str "Invalid SMILES" else .num (saF smiles)

/-- A JSON response of the `/api/get-sa-score` endpoint (main.py). -/
structure SAResponse where
  valid : Bool
  sa_score : Option ℚ
  error : Option String
  status : Nat
deriving DecidableEq, Repr

/-- `get_sa_score_endpoint` (main.py): validity gate first (400 with the
distinct error shape), then the score; the surrounding `try` turns any
exception — e.g. `float()` failing on a non-numeric tool result — into a
500 response, so the endpoint never throws. -/
def get_sa_score_endpoint (validF : String → Bool) (saF : String → ℚ) (smiles : String) :
    SAResponse :=
  if get_is_smiles_string_valid validF smiles ≠ "Valid" then
    { valid := false, sa_score := none, error := some "Invalid SMILES", status := 400 }
  else
    match get_sa_score validF saF smiles with
    | .num q => { valid := true, sa_score := some q, error := none, status := 200 }
    | _ => { valid := false, sa_score := none,
             error := some "could not convert string to float", status := 500 }

-- Projection helpers used by closed (concrete-input) theorems.

/-- Route of a router outcome, `none` on a raise. -/
def routeOf : StepOutcome → Option Route
  | .route r _ => some r
  | .raised _ _ => none

/-- State carried by a router outcome (on a raise: as mutated before it). -/
def stateOf : StepOutcome → ResearchState
  | .route _ s => s
  | .raised _ s => s

/-- Whether the router raised an uncaught exception. -/
def isRaised : StepOutcome → Bool
  | .raised _ _ => true
  | .route _ _ => false

/-- Status field of a finished run. -/
def runStatus : RunResult → Option String
  | .done r _ => some r.status
  | _ => none

/-- Attempt count of a finished run's report. -/
def runAttempts : RunResult → Option Int
  | .done r _ => some r.attempts
  | _ => none

/-- Number of generator calls of a finished run. -/
def runCalls : RunResult → Option Nat
  | .done _ n => some n
  | _ => none

/-- The `meets_constraints` marker of a finished run's report. -/
def runMeets : RunResult → Option Value
  | .done r _ => getk r.validation.entries "meets_constraints"
  | _ => none

/-- The `summary` entry of a finished run's report. -/
def runSummary : RunResult → Option Value
  | .done r _ => getk r.validation.entries "summary"
  | _ => none

/-- Whether the run aborted with an uncaught exception. -/
def runCrashed : RunResult → Bool
  | .crashed _ _ => true
  | _ => false

-- Concrete fixtures for closed (counterexample / scenario / witness) theorems.

/-- External capabilities whose generator always yields a candidate the
oracle deems invalid (Scenario B of the spec). -/
def extInvalid : ExternalCapabilities :=
  { gen := fun _ => "XYZ", validF := fun _ => false, propF := fun _ _ => 0,
    simF := fun _ _ => 0, sumF := fun _ => "agent summary", narrF := fun _ => "narrative" }

/-- External capabilities whose generator always yields a valid candidate
with all property scores 0. -/
def extValid : ExternalCapabilities :=
  { gen := fun _ => "CCO", validF := fun _ => true, propF := fun _ _ => 0,
    simF := fun _ _ => 0, sumF := fun _ => "agent summary", narrF := fun _ => "narrative" }

/-- A generic mid-loop state: attempt 1 of 5, streak 0 of 4; individual
fixtures override the fields they exercise. -/
def baseState : ResearchState :=
  { input_smiles := "CCO",
    optimization_goal := "Decrease LogP",
    constraints := [],
    proposed_smiles := "CCCO",
    validation_results := { entries := [("is_valid", .bool true)], original_props := none },
    conversation_history := [],
    final_report := none,
    retries := 1,
    max_retries := 5,
    similarity_failures := some 0,
    max_similarity_failures := 4 }

/-- Floor configured at 0.2 (below the 0.4 absolute minimum), streak about
to hit its limit: the relaxation step raises the floor to 0.4. -/
def relaxLowFloorState : ResearchState :=
  { baseState with
    constraints := [("similarity", .num pt2)],
    validation_results :=
      { entries := [("is_valid", .bool true), ("similarity", .num pt1)],
        original_props := none },
    similarity_failures := some 3 }

/-- A malformed (string-valued) similarity floor reaching the similarity
comparison: the comparison raises outside any `try`. -/
def strFloorState : ResearchState :=
  { relaxLowFloorState with
    constraints := [("similarity", .str "0.9")],
    similarity_failures := some 0 }

/-- A valid candidate that reaches the goal check with the baseline
property dict missing the key the goal needs: the fault is caught. -/
def goalFaultState : ResearchState :=
  { baseState with
    optimization_goal := "Add Aromatic Ring",
    validation_results :=
      { entries := [("is_valid", .bool true)], original_props := some [] } }

/-- An enabled synthesizability ceiling of 2 with every implemented check
passing and an unrecognized goal; the parameter is the ceiling value. -/
def saCeilingState (v : Value) : ResearchState :=
  { baseState with
    optimization_goal := "Reduce Synthesizability Burden",
    constraints := [("saScore", v), ("mwMin", .num 0), ("mwMax", .num 9999)],
    validation_results :=
      { entries := [("is_valid", .bool true), ("similarity", .num 1), ("mw", .num 300)],
        original_props := none } }

/-- Property vectors on which the combined Lipinski/QED check fails
(violations 1 → 1, QED 0.5 → 0.5) but LogP strictly decreased (3 → 2);
the parameter is the goal text. -/
def toxState (goal : String) : ResearchState :=
  { baseState with
    optimization_goal := goal,
    validation_results :=
      { entries := [("is_valid", .bool true), ("logp", .num 2),
                    ("lipinski_violations", .num 1), ("qed", .num pt5), ("mw", .num 300)],
        original_props := some [("logp", .num 3),
                                ("lipinski_violations", .num 1), ("qed", .num pt5)] } }

/-- A first failing similarity check on a state whose
`similarity_failures` key is absent (as after `run_crew`initialization). -/
def absentStreakState : ResearchState :=
  { baseState with
    constraints := [("similarity", .num pt9)],
    validation_results :=
      { entries := [("is_valid", .bool true), ("similarity", .num pt5)],
        original_props := none },
    similarity_failures := none }

/-- Similarity passes while the molecular-weight window fails. -/
def simPassMwFailState : ResearchState :=
  { baseState with
    constraints := [("similarity", .num pt5)],
    validation_results :=
      { entries := [("is_valid", .bool true), ("similarity", .num 1), ("mw", .num 2000)],
        original_props := none },
    similarity_failures := some 3 }

/-- A cycle failing the validity check, with a nonzero streak. -/
def invalidCandidateState : ResearchState :=
  { baseState with
    validation_results := { entries := [("is_valid", .bool false)], original_props := none },
    similarity_failures := some 3 }

/-- Unstructured goal text with every hard constraint satisfied on the
first attempt. -/
def unknownGoalState : ResearchState :=
  { baseState with
    optimization_goal := "Make it more soluble",
    constraints := [("similarity", .num pt5), ("mwMin", .num 100), ("mwMax", .num 600)],
    validation_results :=
      { entries := [("is_valid", .bool true), ("similarity", .num 1), ("mw", .num 300),
                    ("logp", .num 5)],
        original_props := some [("logp", .num 1)] } }

/-- A run-crew request carrying a malformed (string) similarity floor. -/
def badConstraints : List (String × Value) :=
  [("similarity", .str "0.9"), ("isMwEnabled", .bool true), ("isSaScoreEnabled", .bool true)]

/-- Decidable well-formedness of one optional dictionary entry: absent, or
present with a numeric value. -/
def numOk : Option Value → Bool
  | none => true
  | some v => v.toNum.isSome

/-- The constraint entries the router compares against are numeric when
present, so no comparison in the router raises. -/
def ConstraintsWF (c : List (String × Value)) : Prop :=
  numOk (getk c "similarity") = true ∧ numOk (getk c "mwMin") = true ∧
    numOk (getk c "mwMax") = true

-- Helper lemmas about the dictionary model and Python comparisons.

theorem getk_setk_self (l : List (String × Value)) (k : String) (v : Value) :
    getk (setk l k v) k = some v := by
  induction l with
  | nil => simp [setk, getk]
  | cons p rest ih =>
    obtain ⟨k0, w⟩ := p
    by_cases h : k0 = k
    · subst h; simp [setk, getk]
    · simp [setk, getk, h, ih]

theorem getk_setk_ne (l : List (String × Value)) (k k' : String) (v : Value)
    (h : k ≠ k') : getk (setk l k v) k' = getk l k' := by
  induction l with
  | nil => simp [setk, getk, h]
  | cons p rest ih =>
    obtain ⟨k0, w⟩ := p
    by_cases h0 : k0 = k
    · subst h0; simp [setk, getk, h]
    · by_cases h1 : k0 = k'
      · subst h1; simp [setk, getk, h0]
      · simp [setk, getk, h0, h1, ih]

theorem Value.lt_eq_ok (v w : Value) (x y : ℚ) (hv : v.toNum = some x)
    (hw : w.toNum = some y) : Value.lt v w = .ok (decide (x < y)) := by
  cases v <;> cases w <;> simp_all [Value.toNum, Value.lt]

theorem Value.le_eq_ok (v w : Value) (x y : ℚ) (hv : v.toNum = some x)
    (hw : w.toNum = some y) : Value.le v w = .ok (decide (x ≤ y)) := by
  cases v <;> cases w <;> simp_all [Value.toNum, Value.le]

theorem Value.lt_num_right_toNum (v : Value) (x : ℚ) (b : Bool)
    (h : Value.lt (.num x) v = .ok b) : ∃ y, v.toNum = some y := by
  cases v <;> simp_all [Value.lt, Value.toNum]

theorem listStartsWith_refl (l : List Char) : listStartsWith l l = true := by
  induction l with
  | nil => rfl
  | cons a as ih => simp [listStartsWith, ih]

theorem strContains_refl (s : String) : strContains s s = true := by
  unfold strContains
  cases h : s.toList with
  | nil => simp [listContains, h]
  | cons c rest =>
    have := listStartsWith_refl (c :: rest)
    simp [listContains, this]

theorem goal_not_mem_of_no_sub (g : String)
    (hg : (verifiable_goals.all fun kw => !(strContains g kw)) = true) :
    verifiable_goals.contains g = false := by
  rw [Bool.eq_false_iff]
  intro hc
  have hmem : g ∈ verifiable_goals := by
    simpa using hc
  rw [List.all_eq_true] at hg
  have h1 := hg g hmem
  rw [strContains_refl] at h1
  simp at h1

theorem goalCheck_unknown (g : String) (op en : List (String × Value))
    (hg : (verifiable_goals.all fun kw => !(strContains g kw)) = true) :
    goalCheck g op en = .ok true true := by
  simp only [verifiable_goals, List.all_cons, List.all_nil, Bool.and_eq_true,
    Bool.not_eq_true'] at hg
  obtain ⟨h1, h2, h3, h4, h5, h6, h7, h8, h9, h10, h11, h12, h13, h14, h15, -⟩ := hg
  simp [goalCheck, h1, h2, h3, h4, h5, h6, h7, h8, h9, h10, h11, h12, h13, h14, h15]

-- Exhaustive case lemmas used to invert the router.

theorem except_bool_cases (e : Except String Bool) :
    e = .ok true ∨ e = .ok false ∨ ∃ m, e = .error m := by
  cases e with
  | ok b => cases b
            · exact .inr (.inl rfl)
            · exact .inl rfl
  | error m => exact .inr (.inr ⟨m, rfl⟩)

theorem option_cases {α : Type} (o : Option α) : o = none ∨ ∃ x, o = some x := by
  cases o with
  | none => exact .inl rfl
  | some x => exact .inr ⟨x, rfl⟩

/-- Constructor cases for a boolean, false first. -/
theorem bool_cases (b : Bool) : b = false ∨ b = true := by
  cases b
  · exact .inl rfl
  · exact .inr rfl

/-- Inversion of a completed router call: `retries` and `max_retries` are
untouched; a Retry decision implies the budget check passed; the constraint
map changes at most at the similarity key, and then only to the clamped
relaxation value; and the similarity-failure streak is untouched on budget
or validity exits and reset to 0 whenever the similarity check passes. -/
theorem should_continue_field_spec (s : ResearchState) (r : Route) (s' : ResearchState)
    (h : should_continue s = .route r s') :
    s'.retries = s.retries ∧ s'.max_retries = s.max_retries ∧
    s'.input_smiles = s.input_smiles ∧
    (r = .design → ¬ s.max_retries ≤ s.retries) ∧
    ((∀ k, k ≠ "similarity" → getk s'.constraints k = getk s.constraints k) ∧
      (getk s'.constraints "similarity" = getk s.constraints "similarity" ∨
        ∃ q : ℚ, ((getk s.constraints "similarity").getD (.num 0)).toNum = some q ∧
          getk s'.constraints "similarity" = some (.num (pymax pt4 (q - pt1))))) ∧
    ((s.max_retries ≤ s.retries → s'.similarity_failures = s.similarity_failures) ∧
      (¬ s.max_retries ≤ s.retries →
        Value.truthy ((getk s.validation_results.entries "is_valid").getD (.bool false)) = false →
        s'.similarity_failures = s.similarity_failures) ∧
      (¬ s.max_retries ≤ s.retries →
        Value.truthy ((getk s.validation_results.entries "is_valid").getD (.bool false)) = true →
        Value.lt ((getk s.validation_results.entries "similarity").getD (.num 1))
          ((getk s.constraints "similarity").getD (.num 0)) = .ok false →
        s'.similarity_failures = some 0)) := by
  unfold should_continue at h
  by_cases hb : s.max_retries ≤ s.retries
  · rw [if_pos hb] at h
    injection h with h1 h2
    subst h1; subst h2
    exact ⟨rfl, rfl, rfl, by simp, ⟨fun k _ => rfl, Or.inl rfl⟩, fun _ => rfl,
      fun hnb _ => absurd hb hnb, fun hnb _ _ => absurd hb hnb⟩
  · rw [if_neg hb] at h
    rcases bool_cases
        (Value.truthy ((getk s.validation_results.entries "is_valid").getD (.bool false))) with
      hval | hval
    · simp only [hval, Bool.not_eq_true, if_pos] at h
      injection h with h1 h2
      subst h1; subst h2
      refine ⟨rfl, rfl, rfl, fun _ => hb, ⟨fun k _ => rfl, Or.inl rfl⟩,
        fun hc => absurd hc hb, fun _ _ => rfl, fun _ hc _ => ?_⟩
      simp [hval] at hc
    · simp only [hval, Bool.not_eq_true] at h
      rw [if_neg (by simp)] at h
      rcases except_bool_cases (Value.lt
          ((getk s.validation_results.entries "similarity").getD (.num 1))
          ((getk s.constraints "similarity").getD (.num 0))) with hlt | hlt | ⟨m, hlt⟩
      · -- similarity check fails
        rw [hlt] at h
        simp only [] at h
        by_cases hsf : s.similarity_failures.getD 0 + 1 ≥ s.max_similarity_failures
        · rw [if_pos hsf] at h
          rcases option_cases (((getk s.constraints "similarity").getD (.num 0)).toNum) with
            hq | ⟨q, hq⟩
          · rw [hq] at h; exact absurd h (by simp)
          · rw [hq] at h
            injection h with h1 h2
            subst h1; subst h2
            refine ⟨rfl, rfl, rfl, fun _ => hb,
              ⟨fun k hk => getk_setk_ne _ _ _ _ (fun he => hk (he ▸ rfl)),
                Or.inr ⟨q, hq, getk_setk_self _ _ _⟩⟩,
              fun hc => absurd hc hb, fun _ hc => ?_, fun _ _ hc => ?_⟩
            · simp [hval] at hc
            · simp [hlt] at hc
        · rw [if_neg hsf] at h
          rcases option_cases (getk s.validation_results.entries "similarity") with hsv | ⟨sv, hsv⟩
          · rw [hsv] at h; exact absurd h (by simp)
          · rw [hsv] at h
            rcases option_cases sv.toNum with htn | ⟨x, htn⟩
            · simp only [htn] at h; exact absurd h (by simp)
            · rcases option_cases (((getk s.constraints "similarity").getD (.num 0)).toNum) with
                hfn | ⟨y, hfn⟩
              · simp only [htn, hfn] at h; exact absurd h (by simp)
              · simp only [htn, hfn] at h
                injection h with h1 h2
                subst h1; subst h2
                refine ⟨rfl, rfl, rfl, fun _ => hb, ⟨fun k _ => rfl, Or.inl rfl⟩,
                  fun hc => absurd hc hb, fun _ hc => ?_, fun _ _ hc => ?_⟩
                · simp [hval] at hc
                · simp [hlt] at hc
      · -- similarity check passes; all later branches keep the reset streak
        rw [hlt] at h
        simp only [] at h
        have fin : ∀ (r0 : Route) (s0 : ResearchState),
            s0.retries = s.retries → s0.max_retries = s.max_retries →
            s0.input_smiles = s.input_smiles →
            s0.constraints = s.constraints → s0.similarity_failures = some 0 →
            s0.retries = s.retries ∧ s0.max_retries = s.max_retries ∧
            s0.input_smiles = s.input_smiles ∧
            (r0 = .design → ¬ s.max_retries ≤ s.retries) ∧
            ((∀ k, k ≠ "similarity" → getk s0.constraints k = getk s.constraints k) ∧
              (getk s0.constraints "similarity" = getk s.constraints "similarity" ∨
                ∃ q : ℚ, ((getk s.constraints "similarity").getD (.num 0)).toNum = some q ∧
                  getk s0.constraints "similarity" = some (.num (pymax pt4 (q - pt1))))) ∧
            ((s.max_retries ≤ s.retries → s0.similarity_failures = s.similarity_failures) ∧
              (¬ s.max_retries ≤ s.retries →
                Value.truthy ((getk s.validation_results.entries "is_valid").getD (.bool false)) = false →
                s0.similarity_failures = s.similarity_failures) ∧
              (¬ s.max_retries ≤ s.retries →
                Value.truthy ((getk s.validation_results.entries "is_valid").getD (.bool false)) = true →
                Value.lt ((getk s.validation_results.entries "similarity").getD (.num 1))
                  ((getk s.constraints "similarity").getD (.num 0)) = .ok false →
                s0.similarity_failures = some 0)) := by
          intro r0 s0 e1 e2 e2b e3 e4
          refine ⟨e1, e2, e2b, fun _ => hb, ⟨fun k _ => by rw [e3], Or.inl (by rw [e3])⟩,
            fun hc => absurd hc hb, fun _ hc => ?_, fun _ _ _ => e4⟩
          simp [hval] at hc
        rcases except_bool_cases (Value.le ((getk s.constraints "mwMin").getD (.num 0))
            ((getk s.validation_results.entries "mw").getD (.num 0))) with hle1 | hle1 | ⟨m, hle1⟩
        case _ => -- mwMin ≤ mw holds
          rw [hle1] at h
          rcases except_bool_cases (Value.le
              ((getk s.validation_results.entries "mw").getD (.num 0))
              ((getk s.constraints "mwMax").getD (.num 1000))) with hle2 | hle2 | ⟨m, hle2⟩
          case _ => -- mw ≤ mwMax holds: goal section
            rw [hle2] at h
            simp only [] at h
            rcases hgc : goalCheck s.optimization_goal
                (s.validation_results.original_props.getD []) s.validation_results.entries with
              ⟨gm, unk⟩ | _
            case _ =>
              rw [hgc] at h
              simp only [] at h
              by_cases hunk : unk = true
              · rw [if_pos hunk] at h
                by_cases hgate : (verifiable_goals.contains s.optimization_goal && !gm) = true
                · rw [if_pos hgate] at h
                  injection h with h1 h2; subst h1; subst h2
                  exact fin _ _ rfl rfl rfl rfl rfl
                · rw [if_neg hgate] at h
                  injection h with h1 h2; subst h1; subst h2
                  exact fin _ _ rfl rfl rfl rfl rfl
              · rw [if_neg hunk] at h
                by_cases hgate : (verifiable_goals.contains s.optimization_goal && !gm) = true
                · rw [if_pos hgate] at h
                  injection h with h1 h2; subst h1; subst h2
                  exact fin _ _ rfl rfl rfl rfl rfl
                · rw [if_neg hgate] at h
                  injection h with h1 h2; subst h1; subst h2
                  exact fin _ _ rfl rfl rfl rfl rfl
            case _ =>
              rw [hgc] at h
              injection h with h1 h2; subst h1; subst h2
              exact fin _ _ rfl rfl rfl rfl rfl
          case _ => -- mw above max: retry
            rw [hle2] at h
            simp only [] at h
            rcases option_cases (((getk s.validation_results.entries "mw").getD
                (.num 0)).toNum) with hmn | ⟨mv, hmn⟩
            · rw [hmn] at h; exact absurd h (by simp)
            · rw [hmn] at h
              injection h with h1 h2; subst h1; subst h2
              exact fin _ _ rfl rfl rfl rfl rfl
          case _ =>
            rw [hle2] at h; exact absurd h (by simp)
        case _ => -- mwMin ≤ mw fails: retry
          rw [hle1] at h
          simp only [] at h
          rcases option_cases (((getk s.validation_results.entries "mw").getD
              (.num 0)).toNum) with hmn | ⟨mv, hmn⟩
          · rw [hmn] at h; exact absurd h (by simp)
          · rw [hmn] at h
            injection h with h1 h2; subst h1; subst h2
            exact fin _ _ rfl rfl rfl rfl rfl
        case _ =>
          rw [hle1] at h; exact absurd h (by simp)
      · rw [hlt] at h
        exact absurd h (by simp)

-- Lemmas for the termination analysis of the loop.
/-- A well-formed constraint map yields a numeric live similarity floor. -/
theorem cwf_floor_toNum (c : List (String × Value)) (hc : ConstraintsWF c) :
    ∃ y, ((getk c "similarity").getD (.num 0)).toNum = some y := by
  rcases option_cases (getk c "similarity") with hn | ⟨v, hv⟩
  · rw [hn]; exact ⟨0, rfl⟩
  · rw [hv]
    have h1 := hc.1
    rw [hv] at h1
    simp only [numOk, Option.isSome_iff_exists] at h1
    obtain ⟨y, hy⟩ := h1
    exact ⟨y, hy⟩

/-- A well-formed constraint map yields a numeric lower weight bound. -/
theorem cwf_mwMin_toNum (c : List (String × Value)) (hc : ConstraintsWF c) :
    ∃ y, ((getk c "mwMin").getD (.num 0)).toNum = some y := by
  rcases option_cases (getk c "mwMin") with hn | ⟨v, hv⟩
  · rw [hn]; exact ⟨0, rfl⟩
  · rw [hv]
    have h1 := hc.2.1
    rw [hv] at h1
    simp only [numOk, Option.isSome_iff_exists] at h1
    obtain ⟨y, hy⟩ := h1
    exact ⟨y, hy⟩

/-- A well-formed constraint map yields a numeric upper weight bound. -/
theorem cwf_mwMax_toNum (c : List (String × Value)) (hc : ConstraintsWF c) :
    ∃ y, ((getk c "mwMax").getD (.num 1000)).toNum = some y := by
  rcases option_cases (getk c "mwMax") with hn | ⟨v, hv⟩
  · rw [hn]; exact ⟨1000, rfl⟩
  · rw [hv]
    have h1 := hc.2.2
    rw [hv] at h1
    simp only [numOk, Option.isSome_iff_exists] at h1
    obtain ⟨y, hy⟩ := h1
    exact ⟨y, hy⟩

/-- Every router outcome is a routing decision or a raise. -/
theorem stepOutcome_cases (o : StepOutcome) :
    (∃ r s', o = .route r s') ∨ isRaised o = true := by
  cases o with
  | route r s' => exact .inl ⟨r, s', rfl⟩
  | raised m s' => exact .inr rfl

/-- Under numeric constraint values and oracle-shaped validation entries,
the router never raises. -/
theorem should_continue_not_raised (s : ResearchState)
    (hc : ConstraintsWF s.constraints)
    (hv : getk s.validation_results.entries "is_valid" = some (.bool false) ∨
      (getk s.validation_results.entries "is_valid" = some (.bool true) ∧
        (∃ q : ℚ, getk s.validation_results.entries "similarity" = some (.num q)) ∧
        (∃ q : ℚ, getk s.validation_results.entries "mw" = some (.num q)))) :
    isRaised (should_continue s) = false := by
  by_cases hb : s.max_retries ≤ s.retries
  · unfold should_continue
    rw [if_pos hb]
    rfl
  · rcases hv with hvf | ⟨hvt, ⟨sq, hsq⟩, ⟨mq, hmq⟩⟩
    · have hfalse : Value.truthy ((getk s.validation_results.entries "is_valid").getD
          (.bool false)) = false := by rw [hvf]; rfl
      unfold should_continue
      rw [if_neg hb, if_pos (by simp [hfalse])]
      rfl
    · have htr : Value.truthy ((getk s.validation_results.entries "is_valid").getD
          (.bool false)) = true := by rw [hvt]; rfl
      obtain ⟨fy, hfy⟩ := cwf_floor_toNum s.constraints hc
      have hsimv : ((getk s.validation_results.entries "similarity").getD (.num 1)) =
          .num sq := by rw [hsq]; rfl
      have hlt : Value.lt ((getk s.validation_results.entries "similarity").getD (.num 1))
          ((getk s.constraints "similarity").getD (.num 0)) = .ok (decide (sq < fy)) := by
        rw [hsimv]
        exact Value.lt_eq_ok _ _ _ _ rfl hfy
      unfold should_continue
      rw [if_neg hb, if_neg (by simp [htr])]
      rcases bool_cases (decide (sq < fy)) with hd | hd
      · -- similarity passes: weight window, then the goal section
        rw [hd] at hlt
        obtain ⟨ay, hay⟩ := cwf_mwMin_toNum s.constraints hc
        obtain ⟨by_, hby⟩ := cwf_mwMax_toNum s.constraints hc
        have hmwv : ((getk s.validation_results.entries "mw").getD (.num 0)) = .num mq := by
          rw [hmq]; rfl
        have hle1 : Value.le ((getk s.constraints "mwMin").getD (.num 0)) (.num mq) =
            .ok (decide (ay ≤ mq)) := Value.le_eq_ok _ _ _ _ hay rfl
        have hle2 : Value.le (.num mq) ((getk s.constraints "mwMax").getD (.num 1000)) =
            .ok (decide (mq ≤ by_)) := Value.le_eq_ok _ _ _ _ rfl hby
        rcases bool_cases (decide (ay ≤ mq)) with h1 | h1
        · rw [h1] at hle1
          simp only [hlt, hmwv, hle1]
          rfl
        · rw [h1] at hle1
          rcases bool_cases (decide (mq ≤ by_)) with h2 | h2
          · rw [h2] at hle2
            simp only [hlt, hmwv, hle1, hle2]
            rfl
          · rw [h2] at hle2
            rcases hgc : goalCheck s.optimization_goal
                (s.validation_results.original_props.getD []) s.validation_results.entries with
              ⟨gm, unk⟩ | _
            case _ =>
              simp only [hlt, hmwv, hle1, hle2, hgc]
              split <;> rfl
            case _ =>
              simp only [hlt, hmwv, hle1, hle2, hgc]
              rfl
      · -- similarity fails: either streak branch still routes
        rw [hd] at hlt
        simp only [hlt]
        by_cases hsf : s.similarity_failures.getD 0 + 1 ≥ s.max_similarity_failures
        · rw [if_pos hsf, hfy]
          rfl
        · rw [if_neg hsf, hsq]
          simp only [hfy]
          rfl

/-- The validator always hands the router an `is_valid` boolean, and on a
valid candidate (with a non-empty origin) numeric `similarity` and `mw`
entries. -/
theorem validator_shape (ext : ExternalCapabilities) (s1 : ResearchState)
    (hin : s1.input_smiles ≠ "") :
    getk (validator_node ext s1).validation_results.entries "is_valid" = some (.bool false) ∨
    (getk (validator_node ext s1).validation_results.entries "is_valid" = some (.bool true) ∧
      (∃ q : ℚ, getk (validator_node ext s1).validation_results.entries "similarity" =
        some (.num q)) ∧
      (∃ q : ℚ, getk (validator_node ext s1).validation_results.entries "mw" =
        some (.num q))) := by
  have hbe : (s1.input_smiles == "") = false := by
    exact beq_eq_false_iff_ne.mpr hin
  rcases bool_cases (ext.validF s1.proposed_smiles) with hval | hval
  · left
    simp [validator_node, _get_all_properties, hval, getk, setk, Value.truthy]
  · right
    refine ⟨?_, ⟨ext.simF s1.input_smiles s1.proposed_smiles, ?_⟩,
      ⟨ext.propF "mw" s1.proposed_smiles, ?_⟩⟩ <;>
      simp [validator_node, _get_all_properties, hval, hbe, getk, setk, Value.truthy]

/-- The designer increments `retries` by exactly one per generator call
and leaves the budget, constraints and origin untouched. -/
theorem designer_preserves (ext : ExternalCapabilities) (s : ResearchState) :
    (designer_node ext s).retries = s.retries + 1 ∧
    (designer_node ext s).max_retries = s.max_retries ∧
    (designer_node ext s).constraints = s.constraints ∧
    (designer_node ext s).input_smiles = s.input_smiles :=
  ⟨rfl, rfl, rfl, rfl⟩

/-- The validator does not touch the counters, constraints or origin. -/
theorem validator_preserves (ext : ExternalCapabilities) (s : ResearchState) :
    (validator_node ext s).retries = s.retries ∧
    (validator_node ext s).max_retries = s.max_retries ∧
    (validator_node ext s).constraints = s.constraints ∧
    (validator_node ext s).input_smiles = s.input_smiles :=
  ⟨rfl, rfl, rfl, rfl⟩

/-- Under numeric constraints and a non-empty origin, the loop reaches a
final report within any fuel covering the remaining budget, and the
report's attempt count equals the number of generator calls and stays
within `max ceiling (start + 1)`. -/
theorem runLoop_reaches_report (ext : ExternalCapabilities) :
    ∀ (fuel : Nat), ∀ (s : ResearchState) (calls : Nat),
      ConstraintsWF s.constraints → s.input_smiles ≠ "" →
      s.max_retries ≤ s.retries + (fuel : Int) → 1 ≤ fuel →
      ∃ rep k, runLoop ext fuel s calls = .done rep (calls + k) ∧ 1 ≤ k ∧
        rep.attempts = s.retries + (k : Int) ∧
        rep.attempts ≤ max s.max_retries (s.retries + 1) := by
  intro fuel
  induction fuel with
  | zero => intro s calls _ _ _ h1; omega
  | succ n ih =>
    intro s calls hc hin hbud _
    have hc2 : (validator_node ext (designer_node ext s)).constraints = s.constraints := rfl
    have hnr : isRaised (should_continue (validator_node ext (designer_node ext s))) = false :=
      should_continue_not_raised _ (by rw [hc2]; exact hc)
        (validator_shape ext (designer_node ext s) hin)
    rcases stepOutcome_cases (should_continue (validator_node ext (designer_node ext s))) with
      ⟨r, s', hroute⟩ | hr
    · obtain ⟨hP1, hP2, hP3, hP4, _, _⟩ := should_continue_field_spec _ r s' hroute
      have hr2 : (validator_node ext (designer_node ext s)).retries = s.retries + 1 := rfl
      have hm2 : (validator_node ext (designer_node ext s)).max_retries = s.max_retries := rfl
      have hi2 : (validator_node ext (designer_node ext s)).input_smiles = s.input_smiles := rfl
      cases r with
      | synthesize =>
        refine ⟨synthesizer_report ext s', 1, ?_, le_refl 1, ?_, ?_⟩
        · simp only [runLoop]
          rw [hroute]
        · show (synthesizer_report ext s').attempts = s.retries + ((1 : Nat) : Int)
          have : (synthesizer_report ext s').attempts = s'.retries := rfl
          rw [this, hP1, hr2]
          push_cast
          ring
        · have : (synthesizer_report ext s').attempts = s'.retries := rfl
          rw [this, hP1, hr2]
          exact le_max_right _ _
      | design =>
        have hnb := hP4 rfl
        rw [hm2, hr2] at hnb
        have hM : s.retries + 1 < s.max_retries := by omega
        obtain ⟨hkeys, hsim⟩ := (should_continue_field_spec _ _ s' hroute).2.2.2.2.1
        have hc' : ConstraintsWF s'.constraints := by
          refine ⟨?_, ?_, ?_⟩
          · rcases hsim with hu | ⟨q, _, hq⟩
            · rw [hu, hc2]; exact hc.1
            · rw [hq]; rfl
          · rw [hkeys "mwMin" (by decide), hc2]; exact hc.2.1
          · rw [hkeys "mwMax" (by decide), hc2]; exact hc.2.2
        have hin' : s'.input_smiles ≠ "" := by
          rw [(should_continue_field_spec _ _ s' hroute).2.2.1, hi2]; exact hin
        have hbud' : s'.max_retries ≤ s'.retries + (n : Int) := by
          rw [hP2, hm2, hP1, hr2]
          push_cast at hbud ⊢
          omega
        have h1n : 1 ≤ n := by
          push_cast at hbud
          omega
        obtain ⟨rep, k, hrun, hk1, hatt, hbound⟩ := ih s' (calls + 1) hc' hin' hbud' h1n
        refine ⟨rep, k + 1, ?_, by omega, ?_, ?_⟩
        · simp only [runLoop]
          rw [hroute]
          show runLoop ext n s' (calls + 1) = RunResult.done rep (calls + (k + 1))
          rw [hrun]
          congr 1
          omega
        · rw [hatt, hP1, hr2]
          push_cast
          ring
        · have hmax : max s'.max_retries (s'.retries + 1) = s.max_retries := by
            rw [hP2, hm2, hP1, hr2]
            exact max_eq_left (by omega)
          rw [hmax] at hbound
          exact le_trans hbound (le_max_left _ _)
    · rw [hnr] at hr
      exact absurd hr (by simp)

-- Bridge lemmas for the reduced-fraction float constants.

theorem pt4_eq : pt4 = 2/5 := by rw [pt4, Rat.mk'_eq_divInt, Rat.divInt_eq_div]; norm_num

theorem pt1_eq : pt1 = 1/10 := by rw [pt1, Rat.mk'_eq_divInt, Rat.divInt_eq_div]; norm_num

theorem pt2_eq : pt2 = 1/5 := by rw [pt2, Rat.mk'_eq_divInt, Rat.divInt_eq_div]; norm_num

/-- C1: Whenever the attempt count has reached the ceiling, the router
terminates with Failure: it routes to synthesis with
`meets_constraints = false` and the budget-exhaustion diagnostic, whatever
every other field holds — and concretely (Scenario B), with the hardcoded
ceiling 5 and a generator whose candidates the oracle always rejects, the
run finishes as a Failure after exactly 5 generator calls, with attempt
count 5, `meets_constraints = false` and the budget diagnostic. -/
theorem budget_check_overrides_all :
    (∀ s : ResearchState, s.max_retries ≤ s.retries →
      ∃ s', should_continue s = .route .synthesize s' ∧
        getk s'.validation_results.entries "meets_constraints" = some (.bool false) ∧
        getk s'.validation_results.entries "summary" =
          some (.str "Failure: Max retries reached.")) ∧
    runStatus (runLoop extInvalid 6 (run_crew_initial_state "CCO" "Decrease LogP" []) 0) =
      some "Failure" ∧
    runCalls (runLoop extInvalid 6 (run_crew_initial_state "CCO" "Decrease LogP" []) 0) =
      some 5 ∧
    runAttempts (runLoop extInvalid 6 (run_crew_initial_state "CCO" "Decrease LogP" []) 0) =
      some 5 ∧
    runMeets (runLoop extInvalid 6 (run_crew_initial_state "CCO" "Decrease LogP" []) 0) =
      some (.bool false) ∧
    runSummary (runLoop extInvalid 6 (run_crew_initial_state "CCO" "Decrease LogP" []) 0) =
      some (.str "Failure: Max retries reached.") := by
  refine ⟨?_, by decide, by decide, by decide, by decide, by decide⟩
  intro s hb
  unfold should_continue
  rw [if_pos hb]
  refine ⟨_, rfl, getk_setk_self _ _ _, ?_⟩
  rw [getk_setk_ne _ _ _ _ (by decide)]
  exact getk_setk_self _ _ _

/-- Witness for C1 at a concrete budget-exhausted state. -/
theorem budget_check_overrides_all_witness :
    ∃ s', should_continue { baseState with retries := 5 } = .route .synthesize s' ∧
      getk s'.validation_results.entries "meets_constraints" = some (.bool false) ∧
      getk s'.validation_results.entries "summary" =
        some (.str "Failure: Max retries reached.") :=
  budget_check_overrides_all.1 { baseState with retries := 5 } (by decide)

/-- C2: The router performs no synthesizability-ceiling check. With the
`saScore` ceiling constraint set (here to an arbitrary value `v`, e.g. 2)
and every implemented check passing, the decision is Terminate-Success
with `meets_constraints = true`; the `saScore` entry is present in the
constraint map the router received, yet never consulted — no `Retry` is
ever produced on its account. -/
theorem sa_ceiling_never_checked (v : Value) :
    ∃ s', should_continue (saCeilingState v) = .route .synthesize s' ∧
      getk s'.validation_results.entries "meets_constraints" = some (.bool true) ∧
      getk (saCeilingState v).constraints "saScore" = some v :=
  ⟨_, rfl, rfl, rfl⟩

/-- Counterexample for C3: with the similarity floor configured at 0.2
(below the absolute minimum 0.4) and the streak at its limit, a relaxation
step sets the live floor to `max(0.4, 0.2 - 0.1) = 0.4 > 0.2` — the step
increases the floor. -/
theorem relaxation_raises_low_floor_counterexample :
    getk relaxLowFloorState.constraints "similarity" = some (.num pt2) ∧
    routeOf (should_continue relaxLowFloorState) = some .design ∧
    getk (stateOf (should_continue relaxLowFloorState)).constraints "similarity" =
      some (.num (pymax pt4 (pt2 - pt1))) ∧
    pt2 < pymax pt4 (pt2 - pt1) := by
  refine ⟨rfl, by decide, rfl, ?_⟩
  rw [pymax, pt4_eq, pt1_eq, pt2_eq]
  norm_num

/-- C3 (amended): a completed router call modifies no constraint other
than the similarity floor; when it does modify the floor, the new value is
`max(0.4, old - 0.1)`, which is always at least 0.4 (so accumulated
relaxations never drop below 0.4) and never exceeds the old floor provided
the old floor was at least 0.4 (a floor configured below 0.4 is instead
raised to 0.4 by its first relaxation). -/
theorem relaxation_clamped_floor_update (s : ResearchState) (r : Route) (s' : ResearchState)
    (h : should_continue s = .route r s') :
    (∀ k, k ≠ "similarity" → getk s'.constraints k = getk s.constraints k) ∧
    (getk s'.constraints "similarity" = getk s.constraints "similarity" ∨
      ∃ q : ℚ, ((getk s.constraints "similarity").getD (.num 0)).toNum = some q ∧
        getk s'.constraints "similarity" = some (.num (pymax pt4 (q - pt1))) ∧
        pt4 ≤ pymax pt4 (q - pt1) ∧ (pt4 ≤ q → pymax pt4 (q - pt1) ≤ q)) := by
  obtain ⟨-, -, -, -, ⟨hkeys, hsim⟩, -⟩ := should_continue_field_spec s r s' h
  refine ⟨hkeys, ?_⟩
  rcases hsim with hu | ⟨q, hq, hset⟩
  · exact .inl hu
  · refine .inr ⟨q, hq, hset, ?_, ?_⟩
    · rw [pymax]
      split
      · next hlt => exact le_of_lt hlt
      · exact le_refl _
    · intro hq4
      rw [pymax]
      split
      · exact sub_le_self q (by rw [pt1_eq]; norm_num)
      · exact hq4

/-- Witness for C3 (amended) at the concrete low-floor relaxation state. -/
theorem relaxation_clamped_floor_update_witness :
    (∀ k, k ≠ "similarity" →
      getk (stateOf (should_continue relaxLowFloorState)).constraints k =
        getk relaxLowFloorState.constraints k) ∧
    (getk (stateOf (should_continue relaxLowFloorState)).constraints "similarity" =
        getk relaxLowFloorState.constraints "similarity" ∨
      ∃ q : ℚ,
        ((getk relaxLowFloorState.constraints "similarity").getD (.num 0)).toNum = some q ∧
        getk (stateOf (should_continue relaxLowFloorState)).constraints "similarity" =
          some (.num (pymax pt4 (q - pt1))) ∧
        pt4 ≤ pymax pt4 (q - pt1) ∧ (pt4 ≤ q → pymax pt4 (q - pt1) ≤ q)) :=
  relaxation_clamped_floor_update relaxLowFloorState .design
    (stateOf (should_continue relaxLowFloorState)) rfl

/-- C4: on any completed cycle that passes the budget check, the
similarity-failure streak is reset to 0 whenever the similarity check does
not fail (floor disabled or similarity at or above the floor) — even when
a later check in the same cycle fails — and a cycle that fails the
validity check leaves the streak untouched. -/
theorem streak_reset_iff_similarity_pass (s : ResearchState) (r : Route) (s' : ResearchState)
    (h : should_continue s = .route r s') (hb : s.retries < s.max_retries) :
    (Value.truthy ((getk s.validation_results.entries "is_valid").getD (.bool false)) = true →
      Value.lt ((getk s.validation_results.entries "similarity").getD (.num 1))
        ((getk s.constraints "similarity").getD (.num 0)) = .ok false →
      s'.similarity_failures = some 0) ∧
    (Value.truthy ((getk s.validation_results.entries "is_valid").getD (.bool false)) = false →
      s'.similarity_failures = s.similarity_failures) := by
  obtain ⟨-, -, -, -, -, -, hS2, hS3⟩ := should_continue_field_spec s r s' h
  exact ⟨fun hv hlt => hS3 (not_le.mpr hb) hv hlt, fun hv => hS2 (not_le.mpr hb) hv⟩

/-- Witness for C4: a cycle whose similarity check passes but whose weight
check fails still resets the streak (from 3 to 0), and an invalid-candidate
cycle leaves the streak at 3. -/
theorem streak_reset_iff_similarity_pass_witness :
    (stateOf (should_continue simPassMwFailState)).similarity_failures = some 0 ∧
    (stateOf (should_continue invalidCandidateState)).similarity_failures =
      invalidCandidateState.similarity_failures :=
  ⟨(streak_reset_iff_similarity_pass simPassMwFailState .design
      (stateOf (should_continue simPassMwFailState)) (by decide) (by decide)).1
      (by decide) rfl,
   (streak_reset_iff_similarity_pass invalidCandidateState .design
      (stateOf (should_continue invalidCandidateState)) (by decide) (by decide)).2 (by decide)⟩

/-- Counterexample for C6: a malformed (string-valued) similarity floor
makes the similarity comparison raise a `TypeError` outside any `try`;
the fault escapes the router instead of being converted to Retry. -/
theorem similarity_fault_not_caught_counterexample :
    isRaised (should_continue strFloorState) = true ∧
    getk strFloorState.constraints "similarity" = some (.str "0.9") ∧
    strFloorState.retries < strFloorState.max_retries ∧
    Value.truthy ((getk strFloorState.validation_results.entries "is_valid").getD
      (.bool false)) = true := by decide

/-- C6 (amended): a fault raised inside the goal-comparison section
(missing baseline field, missing property data) is caught by the `try` and
converted to a Retry decision with the error diagnostic, never promoted to
a terminal decision; faults in the similarity and weight-window checks are
outside the protected region. -/
theorem goal_fault_converted_to_retry (s : ResearchState)
    (hb : s.retries < s.max_retries)
    (hv : Value.truthy ((getk s.validation_results.entries "is_valid").getD (.bool false)) = true)
    (hs : Value.lt ((getk s.validation_results.entries "similarity").getD (.num 1))
        ((getk s.constraints "similarity").getD (.num 0)) = .ok false)
    (hm1 : Value.le ((getk s.constraints "mwMin").getD (.num 0))
        ((getk s.validation_results.entries "mw").getD (.num 0)) = .ok true)
    (hm2 : Value.le ((getk s.validation_results.entries "mw").getD (.num 0))
        ((getk s.constraints "mwMax").getD (.num 1000)) = .ok true)
    (hf : goalCheck s.optimization_goal (s.validation_results.original_props.getD [])
        s.validation_results.entries = .fault) :
    ∃ s', should_continue s = .route .design s' ∧
      s'.conversation_history = s.conversation_history ++
        ["Router: Error during goal check. Retrying."] := by
  unfold should_continue
  rw [if_neg (not_le.mpr hb), if_neg (by simp [hv])]
  simp only [hs, hm1, hm2, hf]
  exact ⟨_, rfl, rfl⟩

/-- Witness for C6 (amended): an `Add Aromatic Ring` goal with the baseline
ring count missing faults inside the goal check and yields Retry. -/
theorem goal_fault_converted_to_retry_witness :
    ∃ s', should_continue goalFaultState = .route .design s' ∧
      s'.conversation_history = goalFaultState.conversation_history ++
        ["Router: Error during goal check. Retrying."] :=
  goal_fault_converted_to_retry goalFaultState (by decide) (by decide) rfl rfl rfl
    (by decide)

/-- C9: the run-crew initializer writes a misspelled streak key, so the
state handed to the graph has no `similarity_failures` entry; on the first
failing similarity check (ceiling not reached, candidate valid, streak
limit 4 as the endpoint sets) the router does not raise: it treats the
absent counter as 0 and routes to Retry with the counter set to 1. -/
theorem absent_streak_treated_as_zero :
    (∀ smiles goal c, (run_crew_initial_state smiles goal c).similarity_failures = none) ∧
    (∀ (s : ResearchState) (x : ℚ),
      s.similarity_failures = none → s.max_similarity_failures = 4 →
      s.retries < s.max_retries →
      Value.truthy ((getk s.validation_results.entries "is_valid").getD (.bool false)) = true →
      getk s.validation_results.entries "similarity" = some (.num x) →
      Value.lt (.num x) ((getk s.constraints "similarity").getD (.num 0)) = .ok true →
      ∃ s', should_continue s = .route .design s' ∧ s'.similarity_failures = some 1) := by
  refine ⟨fun _ _ _ => rfl, ?_⟩
  intro s x hsf0 hms4 hb hv hsx hlt
  obtain ⟨fy, hfy⟩ := Value.lt_num_right_toNum _ _ _ hlt
  have hlt' : Value.lt ((getk s.validation_results.entries "similarity").getD (.num 1))
      ((getk s.constraints "similarity").getD (.num 0)) = .ok true := by
    rw [hsx]; exact hlt
  unfold should_continue
  rw [if_neg (not_le.mpr hb), if_neg (by simp [hv])]
  simp only [hlt', hsf0, hms4, Option.getD_none]
  rw [if_neg (by decide), hsx]
  simp only [hfy]
  exact ⟨_, rfl, rfl⟩

/-- Witness for C9 at a concrete state with the streak key absent. -/
theorem absent_streak_treated_as_zero_witness :
    ∃ s', should_continue absentStreakState = .route .design s' ∧
      s'.similarity_failures = some 1 :=
  absent_streak_treated_as_zero.2 absentStreakState pt5 (by decide) (by decide) (by decide)
    (by decide) (by decide) rfl

/-- C7: on a cycle whose goal text matches none of the recognized goal
keywords, the goal comparison is trivially satisfied, so whenever the
budget, validity, similarity and weight checks all pass — in particular on
a first attempt — the decision is Terminate-Success with
`meets_constraints = true`, regardless of any property deltas. -/
theorem unknown_goal_trivially_satisfied (s : ResearchState)
    (hb : s.retries < s.max_retries)
    (hv : Value.truthy ((getk s.validation_results.entries "is_valid").getD (.bool false)) = true)
    (hs : Value.lt ((getk s.validation_results.entries "similarity").getD (.num 1))
        ((getk s.constraints "similarity").getD (.num 0)) = .ok false)
    (hm1 : Value.le ((getk s.constraints "mwMin").getD (.num 0))
        ((getk s.validation_results.entries "mw").getD (.num 0)) = .ok true)
    (hm2 : Value.le ((getk s.validation_results.entries "mw").getD (.num 0))
        ((getk s.constraints "mwMax").getD (.num 1000)) = .ok true)
    (hg : (verifiable_goals.all fun kw => !(strContains s.optimization_goal kw)) = true) :
    ∃ s', should_continue s = .route .synthesize s' ∧
      getk s'.validation_results.entries "meets_constraints" = some (.bool true) := by
  have hcont := goal_not_mem_of_no_sub s.optimization_goal hg
  unfold should_continue
  rw [if_neg (not_le.mpr hb), if_neg (by simp [hv])]
  simp only [hs, hm1, hm2, goalCheck_unknown _ _ _ hg, hcont, Bool.false_and]
  exact ⟨_, rfl, getk_setk_self _ _ _⟩

/-- Witness for C7: an unstructured goal on a first attempt with all hard
constraints satisfied terminates with Success. -/
theorem unknown_goal_trivially_satisfied_witness :
    ∃ s', should_continue unknownGoalState = .route .synthesize s' ∧
      getk s'.validation_results.entries "meets_constraints" = some (.bool true) :=
  unknown_goal_trivially_satisfied unknownGoalState (by decide) (by decide) rfl rfl rfl
    (by decide)

/-- C8: the stateless score endpoint is total (every branch, the
exception handler included, returns a JSON response): on a candidate the
parser rejects it returns the distinct error shape
`valid = false, sa_score = null, status 400`, on an accepted candidate it
returns `valid = true` with the score, and its `valid` field agrees
exactly with the `is_valid` flag the evaluator's validity check consumes
(the same parser verdict via `_get_all_properties`). -/
theorem sa_endpoint_contract (validF : String → Bool) (saF : String → ℚ)
    (propF : String → String → ℚ) (simF : String → String → ℚ)
    (smiles : String) (original : Option String) :
    get_sa_score_endpoint validF saF smiles =
      (if validF smiles then
        { valid := true, sa_score := some (saF smiles), error := none, status := 200 }
       else
        { valid := false, sa_score := none, error := some "Invalid SMILES", status := 400 }) ∧
    (get_sa_score_endpoint validF saF smiles).valid =
      Value.truthy ((getk (_get_all_properties validF propF simF smiles original)
        "is_valid").getD (.bool false)) := by
  rcases bool_cases (validF smiles) with h | h <;>
    simp [get_sa_score_endpoint, get_is_smiles_string_valid, get_sa_score,
      _get_all_properties, h, Value.truthy, getk]

/-- Counterexample for C5: a request whose similarity floor is a string
crashes the loop on the first cycle with an uncaught `TypeError`: no
terminal decision is reached within ceiling + 1 (or any number of)
cycles. -/
theorem loop_crashes_on_malformed_constraint :
    runCrashed (runLoop extValid 6
      (run_crew_initial_state "CCO" "Improve Lipinski" badConstraints) 0) = true ∧
    getk (run_crew_initial_state "CCO" "Improve Lipinski" badConstraints).constraints
      "similarity" = some (.str "0.9") := by decide

/-- C5 (amended): the attempt count increases by exactly 1 per generator
call; and for every request with a non-empty origin whose constraint
values at the similarity floor and weight bounds are numeric (so no
evaluation fault escapes the router), the run-crew loop (ceiling 5)
reaches a final report within ceiling + 1 = 6 cycles, and the report's
attempt count equals the number of generator calls executed and is at most
the ceiling. -/
theorem loop_terminates_within_budget :
    (∀ (ext : ExternalCapabilities) (s : ResearchState),
      (designer_node ext s).retries = s.retries + 1) ∧
    (∀ (ext : ExternalCapabilities) (smiles goal : String) (c : List (String × Value)),
      smiles ≠ "" → ConstraintsWF (run_crew_constraints c) →
      ∃ rep k, runLoop ext 6 (run_crew_initial_state smiles goal c) 0 = .done rep k ∧
        1 ≤ k ∧ rep.attempts = (k : Int) ∧ (k : Int) ≤ 5) := by
  refine ⟨fun ext s => rfl, fun ext smiles goal c hin hc => ?_⟩
  obtain ⟨rep, k, hrun, hk, hatt, hbound⟩ :=
    runLoop_reaches_report ext 6 (run_crew_initial_state smiles goal c) 0 hc hin
      (by show (5 : Int) ≤ 0 + ((6 : Nat) : Int); decide) (by decide)
  have h0 : (run_crew_initial_state smiles goal c).retries = 0 := rfl
  have h5 : (run_crew_initial_state smiles goal c).max_retries = 5 := rfl
  rw [h0, h5] at hbound
  rw [h0] at hatt
  have hmax : max (5 : Int) (0 + 1) = 5 := by norm_num
  rw [hmax] at hbound
  refine ⟨rep, k, by simpa using hrun, hk, by simpa using hatt, ?_⟩
  omega

/-- Witness for C5 (amended) on a concrete well-formed request. -/
theorem loop_terminates_within_budget_witness :
    ∃ rep k, runLoop extInvalid 6 (run_crew_initial_state "CCO" "Decrease LogP" []) 0 =
        .done rep k ∧ 1 ≤ k ∧ rep.attempts = (k : Int) ∧ (k : Int) ≤ 5 :=
  loop_terminates_within_budget.2 extInvalid "CCO" "Decrease LogP" [] (by decide)
    ⟨by decide, by decide, by decide⟩

-- Lemmas for the combined Lipinski/QED goal dispatch.
/-- A goal text equal to `Decrease Toxicity` dispatches (without matching
any earlier keyword) to the combined Lipinski/QED branch. -/
theorem goalCheck_toxicity_eq (op en : List (String × Value)) :
    goalCheck "Decrease Toxicity" op en = lipinskiCheck op en := rfl

/-- A goal text equal to `Improve Lipinski` dispatches to the same
combined Lipinski/QED branch. -/
theorem goalCheck_lipinski_eq (op en : List (String × Value)) :
    goalCheck "Improve Lipinski" op en = lipinskiCheck op en := rfl

/-- Value of the combined check on numeric property data. -/
theorem lipinskiCheck_eval (op en : List (String × Value)) (ov nv oq nq : ℚ)
    (h1 : getk op "lipinski_violations" = some (.num ov))
    (h2 : getk en "lipinski_violations" = some (.num nv))
    (h3 : getk op "qed" = some (.num oq))
    (h4 : getk en "qed" = some (.num nq)) :
    lipinskiCheck op en = .ok (decide (nv < ov) || decide (nq > oq) ||
      (decide (nq > pt9) && decide (nv ≤ 1))) false := by
  unfold lipinskiCheck
  rw [h1, h2, h3, h4]
  rfl

/-- The router routes identically under the two exact goal texts. -/
theorem tox_lip_congr (s : ResearchState) :
    routeOf (should_continue { s with optimization_goal := "Decrease Toxicity" }) =
      routeOf (should_continue { s with optimization_goal := "Improve Lipinski" }) := by
  have hc1 : verifiable_goals.contains "Decrease Toxicity" = true := by decide
  have hc2 : verifiable_goals.contains "Improve Lipinski" = true := by decide
  simp only [should_continue]
  rw [goalCheck_toxicity_eq, goalCheck_lipinski_eq, hc1, hc2]
  repeat' split
  all_goals rfl

/-- On a cycle passing all hard checks, the exact goal `Decrease Toxicity`
terminates with Success iff violations strictly decreased, or QED strictly
increased, or QED exceeds 0.9 with at most one violation. -/
theorem tox_iff (s : ResearchState) (ov nv oq nq : ℚ)
    (hgoal : s.optimization_goal = "Decrease Toxicity")
    (hb : s.retries < s.max_retries)
    (hv : Value.truthy ((getk s.validation_results.entries "is_valid").getD (.bool false)) = true)
    (hs : Value.lt ((getk s.validation_results.entries "similarity").getD (.num 1))
        ((getk s.constraints "similarity").getD (.num 0)) = .ok false)
    (hm1 : Value.le ((getk s.constraints "mwMin").getD (.num 0))
        ((getk s.validation_results.entries "mw").getD (.num 0)) = .ok true)
    (hm2 : Value.le ((getk s.validation_results.entries "mw").getD (.num 0))
        ((getk s.constraints "mwMax").getD (.num 1000)) = .ok true)
    (hov : getk (s.validation_results.original_props.getD []) "lipinski_violations" =
      some (.num ov))
    (hnv : getk s.validation_results.entries "lipinski_violations" = some (.num nv))
    (hoq : getk (s.validation_results.original_props.getD []) "qed" = some (.num oq))
    (hnq : getk s.validation_results.entries "qed" = some (.num nq)) :
    (routeOf (should_continue s) = some .synthesize ↔
      (nv < ov ∨ nq > oq ∨ (nq > pt9 ∧ nv ≤ 1))) := by
  have hgc : goalCheck s.optimization_goal (s.validation_results.original_props.getD [])
      s.validation_results.entries = .ok (decide (nv < ov) || decide (nq > oq) ||
      (decide (nq > pt9) && decide (nv ≤ 1))) false := by
    rw [hgoal, goalCheck_toxicity_eq]
    exact lipinskiCheck_eval _ _ _ _ _ _ hov hnv hoq hnq
  have hcont : verifiable_goals.contains s.optimization_goal = true := by
    rw [hgoal]; decide
  have hPB : ((decide (nv < ov) || decide (nq > oq) ||
      (decide (nq > pt9) && decide (nv ≤ 1))) = true) ↔
      (nv < ov ∨ nq > oq ∨ (nq > pt9 ∧ nv ≤ 1)) := by
    simp [Bool.or_eq_true, Bool.and_eq_true, decide_eq_true_eq, or_assoc]
  rw [← hPB]
  unfold should_continue
  rw [if_neg (not_le.mpr hb), if_neg (by simp [hv])]
  simp only [hs, hm1, hm2, hgc, hcont, Bool.true_and]
  rcases bool_cases (decide (nv < ov) || decide (nq > oq) ||
      (decide (nq > pt9) && decide (nv ≤ 1))) with hB | hB <;> rw [hB] <;> simp [routeOf]

/-- C10 (amended): the goal texts exactly equal to `Decrease Toxicity` and
`Improve Lipinski` dispatch to the identical combined Lipinski/QED check
and yield the same Decision on the same state; on a cycle passing the
budget, validity, similarity and weight checks, that Decision is
Terminate-Success precisely when violations strictly decreased, or QED
strictly increased, or QED is above 0.9 with at most 1 violation. (A goal
string that merely contains these phrases can instead dispatch to an
earlier substring-matched check, or bypass the goal gate entirely.) -/
theorem toxicity_lipinski_same_decision :
    (∀ s : ResearchState,
      routeOf (should_continue { s with optimization_goal := "Decrease Toxicity" }) =
        routeOf (should_continue { s with optimization_goal := "Improve Lipinski" })) ∧
    (∀ (s : ResearchState) (ov nv oq nq : ℚ),
      s.optimization_goal = "Decrease Toxicity" →
      s.retries < s.max_retries →
      Value.truthy ((getk s.validation_results.entries "is_valid").getD (.bool false)) = true →
      Value.lt ((getk s.validation_results.entries "similarity").getD (.num 1))
        ((getk s.constraints "similarity").getD (.num 0)) = .ok false →
      Value.le ((getk s.constraints "mwMin").getD (.num 0))
        ((getk s.validation_results.entries "mw").getD (.num 0)) = .ok true →
      Value.le ((getk s.validation_results.entries "mw").getD (.num 0))
        ((getk s.constraints "mwMax").getD (.num 1000)) = .ok true →
      getk (s.validation_results.original_props.getD []) "lipinski_violations" =
        some (.num ov) →
      getk s.validation_results.entries "lipinski_violations" = some (.num nv) →
      getk (s.validation_results.original_props.getD []) "qed" = some (.num oq) →
      getk s.validation_results.entries "qed" = some (.num nq) →
      (routeOf (should_continue s) = some .synthesize ↔
        (nv < ov ∨ nq > oq ∨ (nq > pt9 ∧ nv ≤ 1)))) :=
  ⟨tox_lip_congr, tox_iff⟩

/-- Counterexample for C10 as frozen: on identical property vectors (the
combined check failing, LogP decreased), the goal `Improve Lipinski`
yields Retry while the goal `Decrease LogP and Decrease Toxicity` — which
contains `Decrease Toxicity` — yields Terminate-Success, because substring
dispatch matches `Decrease LogP` first. -/
theorem toxicity_containment_counterexample :
    routeOf (should_continue (toxState "Improve Lipinski")) = some .design ∧
    routeOf (should_continue (toxState "Decrease LogP and Decrease Toxicity")) =
      some .synthesize ∧
    strContains "Decrease LogP and Decrease Toxicity" "Decrease Toxicity" = true ∧
    (toxState "Improve Lipinski").validation_results =
      (toxState "Decrease LogP and Decrease Toxicity").validation_results := by decide

/-- Witness for C10 (amended) on concrete property vectors where the
combined check fails. -/
theorem toxicity_lipinski_same_decision_witness :
    (routeOf (should_continue (toxState "Decrease Toxicity")) = some .synthesize ↔
      ((1 : ℚ) < 1 ∨ pt5 > pt5 ∨ (pt5 > pt9 ∧ (1 : ℚ) ≤ 1))) :=
  toxicity_lipinski_same_decision.2 (toxState "Decrease Toxicity") 1 1 pt5 pt5 rfl
    (by decide) (by decide) rfl rfl rfl (by decide) (by decide) (by decide) (by decide)
